import Mathlib

/-
Verification development for the BidSmart-AI requirement-resolution pipeline
(src/services/orchestrator.ts).

The orchestrator's core computations (specification matching, pricing, risk
assessment, strategy synthesis, retry classification, extraction
post-processing) are shallowly embedded below.  JavaScript numbers are
modelled as exact rationals (ℚ); JavaScript strings as Lean strings, with the
character-level operations (toLowerCase, trim, includes, replace-filters,
parseFloat) modelled over `List Char`.  The `Orchestrator` class methods that
only log, sleep, or call the network are dropped; the data transformations
they perform are kept.
-/

namespace BidSmart

/-- A JavaScript `string | number` value, as stored in requirement parameter
maps and catalog spec maps (`Record<string, string | number>`). -/
inductive Value where
  | str (s : String)
  | num (q : ℚ)
deriving DecidableEq

/-- ASCII model of `String.prototype.toLowerCase` applied character-wise. -/
def lowerChars (s : String) : List Char :=
  s.toList.map Char.toLower

/-- Model of `String.prototype.trim`: drop whitespace at both ends. -/
def trimChars (l : List Char) : List Char :=
  ((l.dropWhile Char.isWhitespace).reverse.dropWhile Char.isWhitespace).reverse

/-- Model of JavaScript `hay.includes(needle)`: substring containment
(`"".includes` is always true, matching the empty-infix convention). -/
def includesSub (hay needle : List Char) : Bool :=
  decide (needle <:+: hay)

/-- Decimal digits of a natural number, most significant first. -/
def natChars (n : ℕ) : List Char :=
  Nat.toDigits 10 n

/-- Left-pad a digit list with `'0'` up to length `k`. -/
def padZero (l : List Char) (k : ℕ) : List Char :=
  List.replicate (k - l.length) '0' ++ l

/-- Model of JavaScript `String(x)` for a number `x`: the exact decimal
representation when the denominator divides a power of ten (which covers
every finite double in the non-exponent display range, since binary
fractions are terminating decimals), else a `num/den` fallback.  The
fallback is unreachable for values that exist in the JavaScript program;
it only feeds substring comparisons. -/
def ratChars (q : ℚ) : List Char :=
  let sign : List Char := if q.num < 0 then ['-'] else []
  match (List.range 40).find? (fun k => (10 ^ k) % q.den = 0) with
  | some k =>
      let scaled := q.num.natAbs * (10 ^ k) / q.den
      sign ++ natChars (scaled / 10 ^ k) ++
        (if k = 0 then [] else '.' :: padZero (natChars (scaled % 10 ^ k)) k)
  | none => sign ++ natChars q.num.natAbs ++ '/' :: natChars q.den

/-- `String(val)` for a `string | number` value. -/
def valueChars : Value → List Char
  | .str s => s.toList
  | .num q => ratChars q

/-- Model of `parseFloat` restricted to the alphabet `[0-9.-]` that survives
the orchestrator's `replace(/[^0-9.-]/g, '')` filter: an optional leading
minus sign, then decimal digits with at most one decimal point; parsing
stops at the first character that cannot extend the literal.  Returns
`none` where `parseFloat` returns `NaN`. -/
def parseFloatChars (l : List Char) : Option ℚ :=
  let neg : Bool := match l with
    | '-' :: _ => true
    | _ => false
  let l1 : List Char := match l with
    | '-' :: rest => rest
    | _ => l
  let ip := l1.takeWhile Char.isDigit
  let r1 := l1.dropWhile Char.isDigit
  let fp : List Char := match r1 with
    | '.' :: rest => rest.takeWhile Char.isDigit
    | _ => []
  if ip.isEmpty && fp.isEmpty then none
  else
    let iv : ℕ := ip.foldl (fun a c => a * 10 + (c.toNat - 48)) 0
    let fv : ℚ := (fp.foldl (fun a c => a * 10 + (c.toNat - 48)) 0 : ℕ) / ((10 : ℚ) ^ fp.length)
    some ((if neg then -1 else 1) * ((iv : ℚ) + fv))

/-- `parseValue` from `performMatching` (orchestrator.ts lines 77–85):
lower-case and trim `String(val)`, detect a `k`/`m` unit multiplier
(`k` but not `kg` → ×1000, then `m` but not `mm`/`mg` overwrites with
×1000000), strip every character outside `[0-9.-]`, `parseFloat` the rest,
and return `null` (`none`) on `NaN`.

For a numeric value the pipeline is the identity: `String(x)` of a finite
double in the non-exponent display range is its exact decimal
representation, contains no letters (so no multiplier fires) and no
characters outside `[0-9.-]`, and `parseFloat` maps it back to `x`. -/
def parseValue (val : Value) : Option ℚ :=
  match val with
  | .num q => some q
  | .str s =>
      let str := trimChars (lowerChars s)
      let hasK := includesSub str ['k']
      let hasKG := includesSub str ['k', 'g']
      let hasM := includesSub str ['m']
      let hasMM := includesSub str ['m', 'm']
      let hasMG := includesSub str ['m', 'g']
      let m1 : ℚ := if hasK && !hasKG then 1000 else 1
      let m2 : ℚ := if hasM && !hasMM && !hasMG then 1000000 else m1
      let clean := str.filter (fun c => c.isDigit || c = '.' || c = '-')
      (parseFloatChars clean).map (· * m2)

/-- `cleanStr` from `performMatching` (line 87): lower-case, then keep only
`[a-z0-9]`. -/
def cleanStr (s : String) : List Char :=
  (lowerChars s).filter (fun c => c.isLower || c.isDigit)

/-- A catalog item (`SKU` in types.ts).  `specs` is an insertion-ordered
record. -/
structure SKU where
  id : String
  modelName : String
  manufacturer : String
  specs : List (String × Value)
  unitPrice : ℚ
  stockQty : ℚ
  minStockThreshold : ℚ
deriving DecidableEq

/-- An extracted line-item requirement (`ProductRequirement` in types.ts). -/
structure ProductRequirement where
  itemNo : String
  description : String
  qty : ℚ
  unit : String
  params : List (String × Value)
deriving DecidableEq

/-- One scored candidate inside a `SKUMatch` (`matches` array element). -/
structure ScoredSku where
  sku : SKU
  matchScore : ℚ
  details : List (String × ℚ)
deriving DecidableEq

/-- The matcher's per-requirement result (`SKUMatch` in types.ts). -/
structure SKUMatch where
  itemNo : String
  rfpParams : List (String × Value)
  matchList : List ScoredSku
  selectedSkuId : String
  isMTO : Bool
  requestedQty : ℚ
deriving DecidableEq

/-- JavaScript truthiness for a `string | number` value (`NaN` is not
representable as a stored value here). -/
def truthy : Value → Bool
  | .str s => !(s = "")
  | .num q => !(q = 0)

/-- `sku.specs[key]` — exact record lookup (first binding wins; a JS record
has unique keys). -/
def lookupExact (specs : List (String × Value)) (key : String) : Option Value :=
  (specs.find? (fun p => p.1 = key)).map (fun p => p.2)

/-- The fuzzy key search of lines 148–152: the first spec key whose cleaned
form contains, or is contained in, the cleaned requirement key. -/
def findFuzzy (specs : List (String × Value)) (searchKey : List Char) : Option Value :=
  (specs.find? (fun p =>
    let cleanK := cleanStr p.1
    includesSub cleanK searchKey || includesSub searchKey cleanK)).map (fun p => p.2)

/-- The spec-value lookup of lines 145–153: take `sku.specs[key]` when it is
truthy, otherwise fall back to the fuzzy key search. -/
def lookupSpecVal (sku : SKU) (key : String) : Option Value :=
  match lookupExact sku.specs key with
  | some v => if truthy v then some v else findFuzzy sku.specs (cleanStr key)
  | none => findFuzzy sku.specs (cleanStr key)

/-- The numeric scoring rule of lines 164–168: score 1 inside a 10% band
around the average of the two values, else `max(0, 1 − diff/avg)`.
When `avg = 0` (and `diff ≠ 0`) the JavaScript division yields `Infinity`
and `Math.max(0, -Infinity) = 0`. -/
def numericScore (rfpNum skuNum : ℚ) : ℚ :=
  let diff := |skuNum - rfpNum|
  let avg := (skuNum + rfpNum) / 2
  if diff ≤ avg * (1 / 10) then 1
  else if avg = 0 then 0
  else max 0 (1 - diff / avg)

/-- The categorical rule of lines 169–174: case-insensitive equality or
substring containment in either direction. -/
def categoricalScore (val skuVal : Value) : ℚ :=
  let sStr := (valueChars skuVal).map Char.toLower
  let rStr := (valueChars val).map Char.toLower
  if rStr = sStr || includesSub sStr rStr || includesSub rStr sStr then 1 else 0

/-- The per-parameter score of lines 160–174: numeric rule when both values
parse, categorical rule otherwise. -/
def paramScore (val skuVal : Value) : ℚ :=
  match parseValue val, parseValue skuVal with
  | some rfpNum, some skuNum => numericScore rfpNum skuNum
  | _, _ => categoricalScore val skuVal

/-- The parameter loop of lines 139–177, processed front to back: skip empty
requirement values, count the rest (`paramCount`), score each against the
looked-up spec value (0 when no spec value is found), and record the
per-parameter breakdown in order.  Returns
`(totalScore, paramCount, details)`. -/
def scoreParams (sku : SKU) : List (String × Value) → ℚ × ℕ × List (String × ℚ)
  | [] => (0, 0, [])
  | (key, val) :: rest =>
      let acc := scoreParams sku rest
      if val = Value.str "" then acc
      else
        match lookupSpecVal sku key with
        | none => (acc.1, acc.2.1 + 1, (key, 0) :: acc.2.2)
        | some skuVal =>
            let s := paramScore val skuVal
            (acc.1 + s, acc.2.1 + 1, (key, s) :: acc.2.2)

/-- `JSON.stringify` of a spec value. -/
def jsonValueChars : Value → List Char
  | .str s => '"' :: s.toList ++ ['"']
  | .num q => ratChars q

/-- `JSON.stringify` of a spec record. -/
def jsonSpecs (specs : List (String × Value)) : List Char :=
  '\x7b' :: (List.intercalate [','] (specs.map
    (fun p => '"' :: p.1.toList ++ '"' :: ':' :: jsonValueChars p.2))) ++ ['\x7d']

/-- Line 183: the lower-cased concatenation of model name, manufacturer and
stringified specs searched by the text fallback. -/
def skuFullText (sku : SKU) : List Char :=
  (sku.modelName.toList ++ ' ' :: sku.manufacturer.toList ++ ' ' :: jsonSpecs sku.specs).map
    Char.toLower

/-- The separators of the token split `split(/[\s\-_,]+/)` on line 184. -/
def isSepChar (c : Char) : Bool :=
  c.isWhitespace || c = '-' || c = '_' || c = ','

/-- Lines 182–184: lower-case the description, split on separator runs, keep
tokens longer than 2 characters (the empty pieces a `+`-run split never
produces are removed by the same length filter). -/
def rfpTokens (description : String) : List (List Char) :=
  ((lowerChars description).splitOnP isSepChar).filter (fun t => 2 < t.length)

/-- Lines 185–187: the description-token hit ratio against the SKU text,
scaled to a percentage. -/
def textScoreOf (prod : ProductRequirement) (sku : SKU) : ℚ :=
  let tokens := rfpTokens prod.description
  if 0 < tokens.length then
    ((tokens.countP (fun t => includesSub (skuFullText sku) t) : ℕ) : ℚ) / (tokens.length : ℚ) * 100
  else 0

/-- Lines 133–194: score one SKU against one requirement — parameter average
scaled to a percentage, with the text-search fallback replacing a score
below 20 when it does better (adding a `text_inference` breakdown entry). -/
def scoreSku (prod : ProductRequirement) (sku : SKU) : ScoredSku :=
  let r := scoreParams sku prod.params
  let finalScore : ℚ := if 0 < r.2.1 then r.1 / (r.2.1 : ℚ) * 100 else 0
  let ts := textScoreOf prod sku
  if finalScore < 20 ∧ finalScore < ts then
    ⟨sku, ts, r.2.2 ++ [("text_inference", ts / 100)]⟩
  else ⟨sku, finalScore, r.2.2⟩

/-- Stable insertion of a candidate into a list sorted descending by score:
the inserted (originally earlier) element goes before later elements of
equal score.  Models the stable `Array.prototype.sort` with comparator
`(a, b) => b.matchScore - a.matchScore` on line 197. -/
def insertDesc (a : ScoredSku) : List ScoredSku → List ScoredSku
  | [] => [a]
  | b :: bs => if b.matchScore ≤ a.matchScore then a :: b :: bs else b :: insertDesc a bs

/-- Stable descending sort by `matchScore` (line 197). -/
def sortDesc : List ScoredSku → List ScoredSku
  | [] => []
  | a :: as => insertDesc a (sortDesc as)

/-- The hard-coded SKU fabricated by the demo override (lines 97–110) when no
`TRX-500` item exists in the catalog. -/
def demoDefaultSku : SKU :=
  { id := "demo-perfect-match"
    modelName := "TRX-500-Dist"
    manufacturer := "VoltMaster"
    unitPrice := 12500
    stockQty := 12
    minStockThreshold := 2
    specs := [("Voltage", .num 11000), ("Cooling", .str "ONAN"),
              ("Capacity", .str "500kVA"), ("Type", .str "Oil Immersed")] }

/-- The demo-override trigger of line 92: item number `TRF-DIST-001`, or a
description containing `500kVA` (case-sensitive `includes`). -/
def isDemoProduct (prod : ProductRequirement) : Bool :=
  prod.itemNo = "TRF-DIST-001" || includesSub prod.description.toList (String.toList "500kVA")

/-- The demo-override result of lines 92–130: find an existing `TRX-500` SKU
or fabricate one, and return a single candidate with score 98.5 and
`isMTO = false`, ignoring parameters, stock and quantity. -/
def demoMatch (availableSkus : List SKU) (prod : ProductRequirement) : SKUMatch :=
  let demoSku := (availableSkus.find? (fun s =>
    includesSub s.modelName.toList (String.toList "TRX-500") ||
    includesSub s.modelName.toList (String.toList "TRX-500-Dist"))).getD demoDefaultSku
  { itemNo := prod.itemNo
    rfpParams := prod.params
    matchList := [⟨demoSku, 197 / 2,
      [("Voltage", 1), ("Cooling", 1), ("Semantic Check", 1), ("Vector Align", 1)]⟩]
    selectedSkuId := demoSku.id
    isMTO := false
    requestedQty := prod.qty }

/-- `performMatching` for one requirement (the `products.map` callback,
lines 89–221): demo override first; otherwise score every SKU, sort
descending, and build the `SKUMatch` from the top candidate (empty
candidates and `isMTO = true` when the catalog is empty). -/
def matchOne (availableSkus : List SKU) (prod : ProductRequirement) : SKUMatch :=
  if isDemoProduct prod = true then demoMatch availableSkus prod
  else
    match sortDesc (availableSkus.map (scoreSku prod)) with
    | [] =>
        { itemNo := prod.itemNo, rfpParams := prod.params, matchList := [],
          selectedSkuId := "", isMTO := true, requestedQty := prod.qty }
    | top :: rest =>
        { itemNo := prod.itemNo, rfpParams := prod.params,
          matchList := (top :: rest).take 3, selectedSkuId := top.sku.id,
          isMTO := decide (top.sku.stockQty < prod.qty), requestedQty := prod.qty }

/-- `performMatching` (lines 75–222). -/
def performMatching (products : List ProductRequirement) (availableSkus : List SKU) :
    List SKUMatch :=
  products.map (matchOne availableSkus)

/-- A test requirement (`TestRequirement` in types.ts). -/
structure TestRequirement where
  id : String
  testName : String
  scope : String
  perUnit : Bool
  perLot : Bool
  remarks : String
deriving DecidableEq

/-- One bill-of-materials line (`PricingLine` in types.ts). -/
structure PricingLine where
  itemNo : String
  skuModel : String
  unitPrice : ℚ
  qty : ℚ
  productTotal : ℚ
  testCosts : ℚ
  lineTotal : ℚ
  notes : String
deriving DecidableEq

/-- The cost part of `FinalResponse` produced by `runPricing`. -/
structure PricingResult where
  pricingTable : List PricingLine
  subtotal : ℚ
  logistics : ℚ
  contingency : ℚ
  taxes : ℚ
  grandTotal : ℚ
  currency : String
deriving DecidableEq

/-- The per-match pricing callback of `runPricing` (lines 401–416): a
zero-cost "Manual Source Req" line when the selected SKU is not among the
candidates (`match.requestedQty || 0` is `requestedQty` itself, both being
0 on the falsy branch); otherwise `requestedQty || 1` (JavaScript `||`
turns a zero quantity into 1), product total, per-unit/per-lot test fees,
and an MTO/ex-stock note. -/
def priceLine (tests : List TestRequirement) (m : SKUMatch) : PricingLine :=
  match m.matchList.find? (fun c => c.sku.id = m.selectedSkuId) with
  | none =>
      { itemNo := m.itemNo, skuModel := "Manual Source Req", unitPrice := 0,
        qty := m.requestedQty, productTotal := 0, testCosts := 0, lineTotal := 0,
        notes := "Out of Scope" }
  | some selected =>
      let qty : ℚ := if m.requestedQty = 0 then 1 else m.requestedQty
      let unitPrice := selected.sku.unitPrice
      let productTotal := unitPrice * qty
      let testCost : ℚ := tests.foldl
        (fun acc t => acc + (if t.perUnit then 500 * qty else 0) + (if t.perLot then 1000 else 0)) 0
      { itemNo := m.itemNo, skuModel := selected.sku.modelName, unitPrice := unitPrice,
        qty := qty, productTotal := productTotal, testCosts := testCost,
        lineTotal := productTotal + testCost,
        notes := if m.isMTO then "MTO: 4-6 Weeks" else "Ex-Stock: 1-2 Weeks" }

/-- `runPricing` (lines 394–426): rematch, price every line, accumulate the
subtotal, then add the logistics (5%), contingency (3%) and tax (10% of
the surcharged subtotal) layers additively. -/
def runPricing (products : List ProductRequirement) (availableSkus : List SKU)
    (tests : List TestRequirement) (currency : String) : PricingResult :=
  let ms := performMatching products availableSkus
  let table := ms.map (priceLine tests)
  let subtotal := (table.map (fun l => l.lineTotal)).sum
  let logistics := subtotal * (5 / 100)
  let contingency := subtotal * (3 / 100)
  let taxes := (subtotal + logistics + contingency) * (10 / 100)
  { pricingTable := table, subtotal := subtotal, logistics := logistics,
    contingency := contingency, taxes := taxes,
    grandTotal := subtotal + logistics + contingency + taxes, currency := currency }

/-- The result of `runRiskAssessment` (`RiskAnalysis` in types.ts). -/
structure RiskAnalysis where
  score : ℕ
  level : String
  factors : List String
  mitigation : String
deriving DecidableEq

/-- `runRiskAssessment` (lines 428–454): base score 20; +30 when at least one
match is made-to-order; +15 when a due date exists and lies less than five
days (432000000 ms) after `now`; level and mitigation derived from the
score thresholds 70 and 40.  The due-date comparison
`new Date(rfp.dueDate).getTime() - Date.now() < 86400000 * 5` is modelled
on epoch milliseconds, with `none` standing for a falsy `dueDate`. -/
def runRiskAssessment (ms : List SKUMatch) (dueDate : Option ℤ) (now : ℤ) : RiskAnalysis :=
  let mtoCount := (ms.filter (fun m => m.isMTO)).length
  let supplyFlag : Bool := 0 < ms.length && 0 < mtoCount
  let score1 : ℕ := if supplyFlag then 20 + 30 else 20
  let factors1 : List String := if supplyFlag then
      ["Supply Chain: " ++ String.mk (natChars mtoCount) ++ " items are Made-To-Order (Lead time risk)."]
    else []
  let dueFlag : Bool := match dueDate with
    | some d => decide (d - now < 86400000 * 5)
    | none => false
  let score2 : ℕ := score1 + (if dueFlag then 15 else 0)
  let factors2 := factors1 ++ (if dueFlag then ["Timeline: Submission due in < 5 days."] else [])
  { score := score2
    level := if 70 < score2 then "High" else if 40 < score2 then "Medium" else "Low"
    factors := factors2
    mitigation := if 70 < score2 then
        "Recommendation: Request 2 week extension and add liability cap clause."
      else "Recommendation: Standard warranty terms apply." }

/-- The competitor-band / price-position computation of `runStrategyAnalysis`
(lines 484–495), with the `Math.random()`-derived variance factor (drawn
from `[-0.05, 0.15)` by `(Math.random() * 0.2) - 0.05`) made an explicit
input.  Returns the position label and the price score. -/
def pricePositionOf (grandTotal variance : ℚ) : String × ℚ :=
  let marketAvg := grandTotal * (1 + variance)
  let marketHigh := marketAvg * (115 / 100)
  let marketLow := marketAvg * (85 / 100)
  let ourPrice := grandTotal
  if ourPrice < marketLow then ("Low-Cost", 100)
  else if marketHigh < ourPrice then ("Premium", 40)
  else ("Competitive", 75)

/-- The transient-failure classification of `retryOperation` (lines 39–43):
lower-case the error text and look for rate-limit/quota, timeout/abort, or
overload markers. -/
def isTransientError (msg : String) : Bool :=
  let e := lowerChars msg
  includesSub e (String.toList "429") || includesSub e (String.toList "quota") ||
  includesSub e (String.toList "resource_exhausted") ||
  includesSub e (String.toList "timeout") || includesSub e (String.toList "aborted") ||
  includesSub e (String.toList "503") || includesSub e (String.toList "overloaded")

/-- `retryOperation` (lines 33–50) over an abstract operation: `op i` is the
outcome of the i-th invocation of the wrapped operation.  Returns the
surfaced outcome together with the list of back-off delays slept, in
order.  A failure with no retries left, or a non-transient failure, is
rethrown at once; a transient failure sleeps `delay` and recurses with
`retries - 1` and `delay * 2`. -/
def retryOperation (op : ℕ → Except String α) : ℕ → ℕ → ℚ → Except String α × List ℚ
  | attempt, retries, delay =>
    match op attempt with
    | .ok v => (.ok v, [])
    | .error e =>
      match retries with
      | 0 => (.error e, [])
      | r + 1 =>
        if isTransientError e then
          let rest := retryOperation op (attempt + 1) r (delay * 2)
          (rest.1, delay :: rest.2)
        else (.error e, [])

/-- One `technical_specifications` entry of the extraction response schema
(lines 280–290). -/
structure ParsedSpec where
  param_name : String
  param_value : String
deriving DecidableEq

/-- One product of the parsed extraction response (lines 271–293). -/
structure ParsedProduct where
  itemNo : String
  description : String
  qty : ℚ
  unit : String
  technical_specifications : List ParsedSpec
deriving DecidableEq

/-- The parsed JSON payload of a successful extraction call (`parsed.products`
/ `parsed.tests`, with absent arrays already defaulted to `[]` as by
`parsed.products || []`). -/
structure ParsedResponse where
  products : List ParsedProduct
  tests : List TestRequirement
deriving DecidableEq

/-- What `extractRFPData` hands downstream. -/
structure ExtractedData where
  products : List ProductRequirement
  tests : List TestRequirement
deriving DecidableEq

/-- The response post-processing of `extractRFPData` (lines 339–360): each
parsed product keeps its scalar fields and collects the spec entries with
truthy (non-empty) name and value into the parameter record. -/
def processParsed (parsed : ParsedResponse) : ExtractedData :=
  { products := parsed.products.map (fun p =>
      { itemNo := p.itemNo, description := p.description, qty := p.qty, unit := p.unit,
        params := (p.technical_specifications.filter
            (fun s => !(s.param_name = "") && !(s.param_value = ""))).map
          (fun s => (s.param_name, Value.str s.param_value)) })
    tests := parsed.tests }

/-- The fixed payload returned by the demo intercept of `extractRFPData`
(lines 229–261) for any RFP whose title contains `metro`. -/
def metroDemoData : ExtractedData :=
  { products :=
      [{ itemNo := "TRF-DIST-001",
         description := "500kVA Distribution Transformer, 11kV/433V",
         qty := 12, unit := "Nos",
         params := [("Voltage", .str "11kV"), ("Cooling", .str "Oil Cooled"),
                    ("Type", .str "Distribution")] },
       { itemNo := "CBL-HV-3C", description := "3 Core 11kV XLPE Cable",
         qty := 5000, unit := "Meters",
         params := [("Voltage", .str "11kV"), ("Cores", .str "3C"),
                    ("Insulation", .str "XLPE")] }]
    tests := [⟨"T1", "Routine Test", "All Units", true, false, ""⟩] }

/-- `extractRFPData` (lines 224–372) as a function of the RFP title and of the
eventual outcome of the retried, timeout-raced service call (`aiCall`
through `retryOperation`/`withTimeout`; the timeout is configured with a
`null` fallback, so expiry rejects rather than resolving): a title
containing `metro` (case-insensitively) short-circuits to the fixed demo
payload; a service failure is rethrown after logging; a successful parse
is post-processed and returned as-is — in particular an empty product list
is returned as a success. -/
def extractRFPData (title : String) (serviceResult : Except String ParsedResponse) :
    Except String ExtractedData :=
  if includesSub (lowerChars title) (String.toList "metro") then .ok metroDemoData
  else
    match serviceResult with
    | .error e => .error e
    | .ok parsed => .ok (processParsed parsed)

/-! ### Helper lemmas -/

theorem charToNatD0 : '0'.toNat = 48 := rfl

theorem charToNatD1 : '1'.toNat = 49 := rfl

theorem charToNatD2 : '2'.toNat = 50 := rfl

theorem charToNatD3 : '3'.toNat = 51 := rfl

theorem charToNatD4 : '4'.toNat = 52 := rfl

theorem charToNatD5 : '5'.toNat = 53 := rfl

theorem charToNatD6 : '6'.toNat = 54 := rfl

theorem charToNatD7 : '7'.toNat = 55 := rfl

theorem charToNatD8 : '8'.toNat = 56 := rfl

theorem charToNatD9 : '9'.toNat = 57 := rfl

theorem mem_insertDesc (a x : ScoredSku) (l : List ScoredSku) :
    x ∈ insertDesc a l ↔ x = a ∨ x ∈ l := by
  induction l with
  | nil => simp [insertDesc]
  | cons b bs ih =>
    unfold insertDesc
    split
    · simp [List.mem_cons]
    · simp [List.mem_cons, ih]
      tauto

theorem mem_sortDesc (x : ScoredSku) (l : List ScoredSku) : x ∈ sortDesc l ↔ x ∈ l := by
  induction l with
  | nil => simp [sortDesc]
  | cons a as ih =>
    unfold sortDesc
    rw [mem_insertDesc]
    simp [List.mem_cons, ih]

/-- Requirement parameter and catalog spec values whose parsed numeric value,
when there is one, is nonnegative. -/
def nonnegValues (l : List (String × Value)) : Prop :=
  ∀ p ∈ l, ∀ q : ℚ, parseValue p.2 = some q → 0 ≤ q

theorem numericScore_bounds (r s : ℚ) (hr : 0 ≤ r) (hs : 0 ≤ s) :
    0 ≤ numericScore r s ∧ numericScore r s ≤ 1 := by
  unfold numericScore
  dsimp only
  split_ifs with h1 h2
  · exact ⟨zero_le_one, le_refl 1⟩
  · norm_num
  · have havg : 0 < (s + r) / 2 := lt_of_le_of_ne (by positivity) (Ne.symm h2)
    have hd : 0 ≤ |s - r| / ((s + r) / 2) := div_nonneg (abs_nonneg _) havg.le
    exact ⟨le_max_left 0 _, max_le zero_le_one (by linarith)⟩

theorem categoricalScore_bounds (v w : Value) :
    0 ≤ categoricalScore v w ∧ categoricalScore v w ≤ 1 := by
  unfold categoricalScore
  dsimp only
  split_ifs <;> norm_num

theorem paramScore_bounds (v w : Value)
    (hv : ∀ q : ℚ, parseValue v = some q → 0 ≤ q)
    (hw : ∀ q : ℚ, parseValue w = some q → 0 ≤ q) :
    0 ≤ paramScore v w ∧ paramScore v w ≤ 1 := by
  unfold paramScore
  cases h1 : parseValue v with
  | none => cases h2 : parseValue w <;> exact categoricalScore_bounds v w
  | some r =>
    cases h2 : parseValue w with
    | none => exact categoricalScore_bounds v w
    | some s => exact numericScore_bounds r s (hv r h1) (hw s h2)

theorem find?_map_mem {l : List (String × Value)} {f : String × Value → Bool} {v : Value}
    (h : (l.find? f).map (fun p => p.2) = some v) : ∃ k, (k, v) ∈ l := by
  cases hf : l.find? f with
  | none => rw [hf] at h; simp at h
  | some p =>
    rw [hf] at h
    simp only [Option.map_some', Option.some.injEq] at h
    exact ⟨p.1, by rw [← h]; exact List.mem_of_find?_eq_some hf⟩

theorem lookupExact_mem {specs : List (String × Value)} {key : String} {v : Value}
    (h : lookupExact specs key = some v) : ∃ k, (k, v) ∈ specs := by
  unfold lookupExact at h
  exact find?_map_mem h

theorem findFuzzy_mem {specs : List (String × Value)} {sk : List Char} {v : Value}
    (h : findFuzzy specs sk = some v) : ∃ k, (k, v) ∈ specs := by
  unfold findFuzzy at h
  exact find?_map_mem h

theorem lookupSpecVal_mem (sku : SKU) (key : String) (v : Value)
    (h : lookupSpecVal sku key = some v) : ∃ k, (k, v) ∈ sku.specs := by
  unfold lookupSpecVal at h
  cases he : lookupExact sku.specs key with
  | none =>
    rw [he] at h
    exact findFuzzy_mem h
  | some w =>
    rw [he] at h
    simp only at h
    split at h
    · simp only [Option.some.injEq] at h
      subst h
      exact lookupExact_mem he
    · exact findFuzzy_mem h

theorem scoreParams_bounds (sku : SKU) (hs : nonnegValues sku.specs)
    (params : List (String × Value)) (hp : nonnegValues params) :
    0 ≤ (scoreParams sku params).1 ∧
    (scoreParams sku params).1 ≤ ((scoreParams sku params).2.1 : ℚ) ∧
    ∀ d ∈ (scoreParams sku params).2.2, 0 ≤ d.2 ∧ d.2 ≤ 1 := by
  induction params with
  | nil => simp [scoreParams]
  | cons kv rest ih =>
    obtain ⟨key, val⟩ := kv
    have hp2 : nonnegValues rest := fun p hm => hp p (List.mem_cons_of_mem _ hm)
    obtain ⟨ih1, ih2, ih3⟩ := ih hp2
    unfold scoreParams
    split
    · exact ⟨ih1, ih2, ih3⟩
    · cases hlv : lookupSpecVal sku key with
      | none =>
        refine ⟨ih1, ?_, ?_⟩
        · push_cast; linarith
        · intro d hd
          rcases List.mem_cons.mp hd with h | h
          · subst h; norm_num
          · exact ih3 d h
      | some skuVal =>
        have hv1 : ∀ q : ℚ, parseValue val = some q → 0 ≤ q :=
          hp (key, val) (List.mem_cons_self _ _)
        obtain ⟨k2, hk2⟩ := lookupSpecVal_mem sku key skuVal hlv
        have hv2 : ∀ q : ℚ, parseValue skuVal = some q → 0 ≤ q := hs (k2, skuVal) hk2
        obtain ⟨ps1, ps2⟩ := paramScore_bounds val skuVal hv1 hv2
        refine ⟨by positivity, ?_, ?_⟩
        · push_cast; linarith
        · intro d hd
          rcases List.mem_cons.mp hd with h | h
          · subst h; exact ⟨ps1, ps2⟩
          · exact ih3 d h

theorem textScoreOf_bounds (prod : ProductRequirement) (sku : SKU) :
    0 ≤ textScoreOf prod sku ∧ textScoreOf prod sku ≤ 100 := by
  unfold textScoreOf
  dsimp only
  split_ifs with h
  · have hc : (rfpTokens prod.description).countP
        (fun t => includesSub (skuFullText sku) t) ≤ (rfpTokens prod.description).length :=
      List.countP_le_length _
    have hlen : (0 : ℚ) < ((rfpTokens prod.description).length : ℚ) := by exact_mod_cast h
    have hql : (((rfpTokens prod.description).countP
        (fun t => includesSub (skuFullText sku) t) : ℕ) : ℚ) ≤
        ((rfpTokens prod.description).length : ℚ) := by exact_mod_cast hc
    have hdiv : (((rfpTokens prod.description).countP
        (fun t => includesSub (skuFullText sku) t) : ℕ) : ℚ) /
        ((rfpTokens prod.description).length : ℚ) ≤ 1 := by
      rw [div_le_one hlen]; exact hql
    constructor
    · positivity
    · nlinarith
  · norm_num

theorem scoreSku_bounds (prod : ProductRequirement) (sku : SKU)
    (hp : nonnegValues prod.params) (hs : nonnegValues sku.specs) :
    (0 ≤ (scoreSku prod sku).matchScore ∧ (scoreSku prod sku).matchScore ≤ 100) ∧
    ∀ d ∈ (scoreSku prod sku).details, 0 ≤ d.2 ∧ d.2 ≤ 1 := by
  obtain ⟨h1, h2, h3⟩ := scoreParams_bounds sku hs prod.params hp
  obtain ⟨t1, t2⟩ := textScoreOf_bounds prod sku
  unfold scoreSku
  dsimp only
  set f : ℚ := (if 0 < (scoreParams sku prod.params).2.1 then
      (scoreParams sku prod.params).1 / ((scoreParams sku prod.params).2.1 : ℚ) * 100 else 0)
    with hf
  have hfin : 0 ≤ f ∧ f ≤ 100 := by
    rw [hf]
    split_ifs with hcnt
    · have hcq : (0 : ℚ) < ((scoreParams sku prod.params).2.1 : ℚ) := by exact_mod_cast hcnt
      have hdiv : (scoreParams sku prod.params).1 / ((scoreParams sku prod.params).2.1 : ℚ) ≤ 1 := by
        rw [div_le_one hcq]; exact h2
      constructor
      · positivity
      · nlinarith
    · norm_num
  split_ifs with hsw
  · refine ⟨⟨t1, t2⟩, ?_⟩
    intro d hd
    rcases List.mem_append.mp hd with h | h
    · exact h3 d h
    · simp only [List.mem_singleton] at h
      subst h
      constructor
      · positivity
      · simp only
        linarith
  · exact ⟨hfin, h3⟩

/-! ### C1 -/

/-- Requirement used to refute C1: it triggers the demo override, with an
empty catalog and a quantity above the fabricated SKU's stock. -/
def c1Prod : ProductRequirement := ⟨"TRF-DIST-001", "", 100, "Nos", []⟩

/-- C1 (counterexample): on the demo-override path the matcher violates both
halves of the claim — with an *empty* catalog it still returns one
candidate (the fabricated demo SKU) instead of an empty list, and reports
`isMTO = false` even though the selected candidate's stock (12) is below
the requested quantity (100). -/
theorem C1_counterexample :
    (matchOne [] c1Prod).matchList =
      [⟨demoDefaultSku, 197 / 2,
        [("Voltage", 1), ("Cooling", 1), ("Semantic Check", 1), ("Vector Align", 1)]⟩] ∧
    demoDefaultSku.stockQty < c1Prod.qty ∧
    (matchOne [] c1Prod).isMTO = false := by
  refine ⟨?_, ?_, ?_⟩
  · simp +decide [matchOne, isDemoProduct, demoMatch, includesSub, c1Prod]
  · norm_num [demoDefaultSku, c1Prod]
  · simp +decide [matchOne, isDemoProduct, demoMatch, includesSub, c1Prod]

/-- C1 (amended): away from the demo override (item number other than
`TRF-DIST-001` and description not containing `500kVA`), the claim holds:
an empty catalog yields an empty candidate list with `isMTO = true`, and
otherwise the selected candidate is the head of the candidate list and
`isMTO` holds iff its stock is below the requested quantity. -/
theorem C1_mto_iff (prod : ProductRequirement) (skus : List SKU)
    (hdemo : isDemoProduct prod = false) :
    (skus = [] → (matchOne skus prod).matchList = [] ∧ (matchOne skus prod).isMTO = true) ∧
    (∀ top rest, (matchOne skus prod).matchList = top :: rest →
      (matchOne skus prod).selectedSkuId = top.sku.id ∧
      ((matchOne skus prod).isMTO = true ↔ top.sku.stockQty < prod.qty)) := by
  unfold matchOne
  rw [hdemo]
  simp only [Bool.false_eq_true, if_false]
  rcases hL : sortDesc (skus.map (scoreSku prod)) with _ | ⟨t, ts⟩
  · refine ⟨fun _ => ⟨rfl, rfl⟩, ?_⟩
    intro top rest h
    simp at h
  · refine ⟨?_, ?_⟩
    · intro hskus
      subst hskus
      simp [sortDesc] at hL
    · intro top rest h
      simp only [List.take_succ_cons, List.cons.injEq] at h
      obtain ⟨h1, _⟩ := h
      subst h1
      exact ⟨rfl, by simp⟩

/-- Input for the C1 witness: a non-demo requirement with quantity 5 against
a catalog item with stock 3. -/
def c1wProd : ProductRequirement := ⟨"PUMP-7", "zz", 5, "Nos", []⟩

/-- Catalog item for the C1 witness. -/
def c1wSku : SKU := ⟨"sku-1", "AquaFlow", "PumpCo", [], 1000, 3, 1⟩

/-- Witness for C1 (amended) at a concrete non-demo input. -/
theorem C1_mto_iff_witness :
    (matchOne [c1wSku] c1wProd).isMTO = true ↔
      (⟨c1wSku, 0, []⟩ : ScoredSku).sku.stockQty < c1wProd.qty :=
  ((C1_mto_iff c1wProd [c1wSku] (by decide)).2 ⟨c1wSku, 0, []⟩ []
    (by simp +decide [matchOne, isDemoProduct, includesSub, sortDesc, insertDesc, scoreSku,
      scoreParams, textScoreOf, rfpTokens, lowerChars, c1wProd, c1wSku])).2

/-! ### C2 -/

/-- C2 (counterexample): the claimed range rule does not exist — requirement
value `"100-200"` against catalog value `150` scores 3/5 (the numeric
closeness of 150 to the parsed leading number 100), not the claimed 1. -/
theorem C2_counterexample :
    paramScore (Value.str "100-200") (Value.num 150) = 3 / 5 ∧ (3 / 5 : ℚ) ≠ 1 := by
  constructor
  · simp +decide [paramScore, parseValue, parseFloatChars, trimChars, includesSub, numericScore,
      (by decide : lowerChars "100-200" = "100-200".toList),
      charToNatD0, charToNatD1, charToNatD2]
    norm_num
  · norm_num

/-- C2 (amended): a requirement value of the form `"<min>-<max>"` is not
range-scored; `parseFloat` keeps only the leading number (`"100-200"`
parses as 100) and any two parsed values are scored by the code's numeric
rule (1 inside the 10% band around the average, else
`max(0, 1 − diff/avg)`), so `"100-200"` vs `150` scores 3/5 and vs `250`
scores 1/7. -/
theorem C2_range_as_leading_number (rv cv : Value) (r c : ℚ)
    (h1 : parseValue rv = some r) (h2 : parseValue cv = some c) :
    paramScore rv cv = numericScore r c ∧
    parseValue (Value.str "100-200") = some 100 ∧
    paramScore (Value.str "100-200") (Value.num 150) = 3 / 5 ∧
    paramScore (Value.str "100-200") (Value.num 250) = 1 / 7 := by
  refine ⟨?_, ?_, ?_, ?_⟩
  · unfold paramScore
    rw [h1, h2]
  · simp +decide [parseValue, parseFloatChars, trimChars, includesSub,
      (by decide : lowerChars "100-200" = "100-200".toList),
      charToNatD0, charToNatD1, charToNatD2]
  · simp +decide [paramScore, parseValue, parseFloatChars, trimChars, includesSub, numericScore,
      (by decide : lowerChars "100-200" = "100-200".toList),
      charToNatD0, charToNatD1, charToNatD2]
    norm_num
  · simp +decide [paramScore, parseValue, parseFloatChars, trimChars, includesSub, numericScore,
      (by decide : lowerChars "100-200" = "100-200".toList),
      charToNatD0, charToNatD1, charToNatD2]
    norm_num

/-- Witness for C2 (amended) at the concrete range-shaped input. -/
theorem C2_range_as_leading_number_witness :
    paramScore (Value.str "100-200") (Value.num 150) = numericScore 100 150 :=
  (C2_range_as_leading_number (Value.str "100-200") (Value.num 150) 100 150
    (by simp +decide [parseValue, parseFloatChars, trimChars, includesSub,
      (by decide : lowerChars "100-200" = "100-200".toList),
      charToNatD0, charToNatD1, charToNatD2]) rfl).1

/-! ### C3 -/

/-- C3 (counterexample): requirement `1000` against catalog `1100` scores 1
under the code's 10%-band rule (|1100−1000| = 100 ≤ 0.1·1050), whereas
the claimed formula `max(0, 1 − |c−r|/(r+ε))` gives a value below 1
(≈ 0.9). -/
theorem C3_counterexample :
    paramScore (Value.num 1000) (Value.num 1100) = 1 ∧
    max (0 : ℚ) (1 - 100 / (1000 + 1 / 100000)) < 1 := by
  constructor
  · simp only [paramScore, parseValue, numericScore]
    norm_num
  · norm_num

/-- C3 (amended): for two numeric values the per-parameter score is not the
claimed `max(0, 1 − |c−r|/(r+ε))`; the code scores 1 whenever
`|c−r| ≤ 0.1·((c+r)/2)` and otherwise `max(0, 1 − |c−r|/((c+r)/2))`
(0 when the average is 0), so `1000` vs `1000` scores 1 and `1000` vs
`1100` also scores 1. -/
theorem C3_numeric_band (r c : ℚ) :
    paramScore (Value.num r) (Value.num c) =
      (if |c - r| ≤ (c + r) / 2 * (1 / 10) then 1
       else if (c + r) / 2 = 0 then 0
       else max 0 (1 - |c - r| / ((c + r) / 2))) ∧
    paramScore (Value.num 1000) (Value.num 1000) = 1 ∧
    paramScore (Value.num 1000) (Value.num 1100) = 1 := by
  refine ⟨rfl, ?_, ?_⟩
  · simp only [paramScore, parseValue, numericScore]
    norm_num
  · simp only [paramScore, parseValue, numericScore]
    norm_num

/-! ### C4 -/

/-- An extraction response parsing successfully but containing zero
requirements. -/
def c4EmptyParsed : ParsedResponse := ⟨[], []⟩

/-- C4 (counterexample): the gateway does not fail on zero extracted
requirements — it returns the empty list as a success — and for a title
containing `metro` it silently returns fabricated demo requirements even
when the underlying service failed. -/
theorem C4_counterexample :
    extractRFPData "Highway Lighting RFP" (Except.ok c4EmptyParsed) =
      Except.ok ⟨[], []⟩ ∧
    extractRFPData "Metro Rail Package 2" (Except.error "schema violation") =
      Except.ok metroDemoData := by
  constructor
  · simp +decide [extractRFPData, includesSub, processParsed, c4EmptyParsed,
      (by decide : lowerChars "Highway Lighting RFP" = "highway lighting rfp".toList)]
  · simp +decide [extractRFPData, includesSub,
      (by decide : lowerChars "Metro Rail Package 2" = "metro rail package 2".toList)]

/-- C4 (amended): for a title not containing `metro` (case-insensitively) the
gateway propagates service-level failures (malformed data, retry
exhaustion) as errors and otherwise returns exactly the post-processed
service response — including a silently returned empty requirement list;
a title containing `metro` short-circuits to the fixed fabricated demo
payload without consulting the service. -/
theorem C4_amended (title : String) (e : String) (parsed : ParsedResponse)
    (hm : includesSub (lowerChars title) (String.toList "metro") = false) :
    extractRFPData title (Except.error e) = Except.error e ∧
    extractRFPData title (Except.ok parsed) = Except.ok (processParsed parsed) ∧
    extractRFPData ("Metro" ++ title) (Except.error e) = Except.ok metroDemoData := by
  have hmetro : includesSub (lowerChars ("Metro" ++ title)) (String.toList "metro") = true := by
    unfold includesSub
    rw [decide_eq_true_iff]
    have hsplit : lowerChars ("Metro" ++ title) = "metro".toList ++ lowerChars title := by
      unfold lowerChars
      show List.map Char.toLower ("Metro" ++ title).data = _
      rw [String.data_append, List.map_append]
      rfl
    rw [hsplit]
    exact ⟨[], lowerChars title, by simp⟩
  refine ⟨?_, ?_, ?_⟩
  · unfold extractRFPData
    rw [hm]
    simp
  · unfold extractRFPData
    rw [hm]
    simp
  · unfold extractRFPData
    rw [hmetro]
    simp

/-- Witness for C4 (amended) at a concrete non-demo title and service error. -/
theorem C4_amended_witness :
    extractRFPData "Substation Upgrade" (Except.error "503 overloaded") =
      Except.error "503 overloaded" :=
  (C4_amended "Substation Upgrade" "503 overloaded" c4EmptyParsed (by decide)).1

/-! ### C5 -/

/-- Requirement with a negative numeric parameter, used to refute C5. -/
def c5Prod : ProductRequirement := ⟨"NEG-1", "", 1, "Nos", [("X", .num (-20))]⟩

/-- Catalog item with a negative numeric spec, used to refute C5. -/
def c5Sku : SKU := ⟨"sku-neg", "GenModel", "GenMfr", [("X", .num (-10))], 10, 5, 1⟩

/-- C5 (counterexample): with negative parameter values the per-parameter
score can exceed 1 and the match score can exceed 100 — requirement
`X = −20` against catalog `X = −10` scores 5/3 on the parameter and 500/3
overall (the average is negative and `1 − diff/avg` exceeds 1). -/
theorem C5_counterexample :
    (matchOne [c5Sku] c5Prod).matchList = [⟨c5Sku, 500 / 3, [("X", 5 / 3)]⟩] ∧
    (100 : ℚ) < 500 / 3 ∧ (1 : ℚ) < 5 / 3 := by
  refine ⟨?_, by norm_num, by norm_num⟩
  simp +decide [matchOne, isDemoProduct, includesSub, sortDesc, insertDesc, scoreSku, scoreParams,
    lookupSpecVal, lookupExact, findFuzzy, cleanStr, truthy, paramScore, parseValue, numericScore,
    textScoreOf, rfpTokens, lowerChars, c5Prod, c5Sku]
  norm_num

/-- C5 (amended): when every requirement parameter value and every catalog
spec value that parses as a number is nonnegative, every candidate's
match score lies in [0, 100] and every per-parameter breakdown score lies
in [0, 1] (the demo-override candidate included). -/
theorem C5_amended (prod : ProductRequirement) (skus : List SKU)
    (hp : nonnegValues prod.params) (hs : ∀ sku ∈ skus, nonnegValues sku.specs) :
    ∀ c ∈ (matchOne skus prod).matchList,
      (0 ≤ c.matchScore ∧ c.matchScore ≤ 100) ∧ ∀ d ∈ c.details, 0 ≤ d.2 ∧ d.2 ≤ 1 := by
  intro c hc
  unfold matchOne at hc
  by_cases hd : isDemoProduct prod = true
  · rw [if_pos hd] at hc
    unfold demoMatch at hc
    simp only [List.mem_singleton] at hc
    subst hc
    refine ⟨by norm_num, ?_⟩
    intro d hd2
    have : d = ("Voltage", (1 : ℚ)) ∨ d = ("Cooling", (1 : ℚ)) ∨
        d = ("Semantic Check", (1 : ℚ)) ∨ d = ("Vector Align", (1 : ℚ)) := by
      simpa using hd2
    rcases this with h | h | h | h <;> subst h <;> norm_num
  · rw [if_neg hd] at hc
    rcases hL : sortDesc (skus.map (scoreSku prod)) with _ | ⟨t, ts⟩ <;> rw [hL] at hc
    · simp at hc
    · simp only at hc
      have hc2 : c ∈ t :: ts := List.mem_of_mem_take hc
      rw [← hL, mem_sortDesc] at hc2
      obtain ⟨sku, hsku, rfl⟩ := List.mem_map.mp hc2
      exact scoreSku_bounds prod sku hp (hs sku hsku)

/-- Requirement for the C5 witness: one nonnegative numeric parameter. -/
def c5wProd : ProductRequirement := ⟨"GEN-1", "zz", 2, "Nos", [("V", .num 100)]⟩

/-- Catalog item for the C5 witness. -/
def c5wSku : SKU := ⟨"sku-2", "GenX", "Acme", [("V", .num 110)], 500, 10, 1⟩

/-- Witness for C5 (amended) at a concrete nonnegative input. -/
theorem C5_amended_witness :
    0 ≤ (scoreSku c5wProd c5wSku).matchScore ∧ (scoreSku c5wProd c5wSku).matchScore ≤ 100 :=
  (C5_amended c5wProd [c5wSku]
    (by
      intro p hp q hq
      simp only [c5wProd, List.mem_singleton] at hp
      subst hp
      simp only [parseValue, Option.some.injEq] at hq
      subst hq
      norm_num)
    (by
      intro sku hsku p hp q hq
      simp only [List.mem_singleton] at hsku
      subst hsku
      simp only [c5wSku, List.mem_singleton] at hp
      subst hp
      simp only [parseValue, Option.some.injEq] at hq
      subst hq
      norm_num)
    (scoreSku c5wProd c5wSku)
    (by simp +decide [matchOne, isDemoProduct, includesSub, sortDesc, insertDesc, c5wProd,
      c5wSku])).1

/-! ### C6 -/

/-- C6 (confirmed): the pricer's surcharges are the additive form —
`logistics = 0.05·S`, `contingency = 0.03·S`,
`taxes = 0.10·(S + logistics + contingency)`, and `grandTotal` their sum;
at `S = 1000` this gives 50, 30, 108 and 1188, which differs from the
multiplicative `S · 1.05 · 1.03 · 1.10`. -/
theorem C6_pricing (products : List ProductRequirement) (skus : List SKU)
    (tests : List TestRequirement) (cur : String) :
    (runPricing products skus tests cur).logistics =
      (runPricing products skus tests cur).subtotal * (5 / 100) ∧
    (runPricing products skus tests cur).contingency =
      (runPricing products skus tests cur).subtotal * (3 / 100) ∧
    (runPricing products skus tests cur).taxes =
      ((runPricing products skus tests cur).subtotal +
        (runPricing products skus tests cur).logistics +
        (runPricing products skus tests cur).contingency) * (10 / 100) ∧
    (runPricing products skus tests cur).grandTotal =
      (runPricing products skus tests cur).subtotal +
        (runPricing products skus tests cur).logistics +
        (runPricing products skus tests cur).contingency +
        (runPricing products skus tests cur).taxes ∧
    ((runPricing products skus tests cur).subtotal = 1000 →
      (runPricing products skus tests cur).logistics = 50 ∧
      (runPricing products skus tests cur).contingency = 30 ∧
      (runPricing products skus tests cur).taxes = 108 ∧
      (runPricing products skus tests cur).grandTotal = 1188 ∧
      (runPricing products skus tests cur).grandTotal ≠
        1000 * (105 / 100) * (103 / 100) * (110 / 100)) := by
  refine ⟨rfl, rfl, rfl, rfl, ?_⟩
  intro h
  unfold runPricing at h ⊢
  simp only at h ⊢
  rw [h]
  norm_num

/-- Requirement for the C6 witness. -/
def c6Prod : ProductRequirement := ⟨"GEN-2", "zz", 1, "Nos", []⟩

/-- Catalog item for the C6 witness, unit price 1000. -/
def c6Sku : SKU := ⟨"sku-3", "GenY", "Acme", [], 1000, 10, 1⟩

/-- Witness for C6 at a concrete input with subtotal 1000. -/
theorem C6_pricing_witness :
    (runPricing [c6Prod] [c6Sku] [] "USD").grandTotal = 1188 := by
  have hsub : (runPricing [c6Prod] [c6Sku] [] "USD").subtotal = 1000 := by
    simp +decide [runPricing, performMatching, matchOne, isDemoProduct, includesSub, sortDesc,
      insertDesc, scoreSku, scoreParams, textScoreOf, rfpTokens, lowerChars, priceLine,
      c6Prod, c6Sku]
  exact ((C6_pricing [c6Prod] [c6Sku] [] "USD").2.2.2.2 hsub).2.2.2.1

/-! ### C7 -/

theorem retryOperation_spec {α : Type} (op : ℕ → Except String α) :
    ∀ (n i : ℕ) (d : ℚ) (k : ℕ), k ≤ n →
    (∀ j, j < k → ∃ e, op (i + j) = Except.error e ∧ isTransientError e = true) →
    (k = n ∨ (∀ e, op (i + k) = Except.error e → isTransientError e = false) ∨
      ∃ v, op (i + k) = Except.ok v) →
    (retryOperation op i n d).1 = op (i + k) ∧
    (retryOperation op i n d).2 = (List.range k).map (fun j => d * 2 ^ j) := by
  intro n
  induction n with
  | zero =>
    intro i d k hk htrans hstop
    interval_cases k
    unfold retryOperation
    cases h : op i <;> simp [h]
  | succ m ih =>
    intro i d k hk htrans hstop
    cases k with
    | zero =>
      rcases hstop with h0 | hfatal | ⟨v, hv⟩
      · omega
      · cases h : op i with
        | ok v => unfold retryOperation; simp [h]
        | error e =>
          have he : isTransientError e = false := hfatal e (by rw [Nat.add_zero]; exact h)
          unfold retryOperation
          simp [h, he]
      · unfold retryOperation
        rw [Nat.add_zero] at hv
        simp [hv]
    | succ k2 =>
      obtain ⟨e, he, het⟩ := htrans 0 (Nat.succ_pos k2)
      rw [Nat.add_zero] at he
      have htrans2 : ∀ j, j < k2 → ∃ e2, op (i + 1 + j) = Except.error e2 ∧
          isTransientError e2 = true := by
        intro j hj
        obtain ⟨e2, he2, het2⟩ := htrans (j + 1) (by omega)
        exact ⟨e2, by rw [show i + 1 + j = i + (j + 1) by omega]; exact he2, het2⟩
      have hstop2 : k2 = m ∨ (∀ e2, op (i + 1 + k2) = Except.error e2 →
          isTransientError e2 = false) ∨ ∃ v, op (i + 1 + k2) = Except.ok v := by
        rcases hstop with h0 | hfatal | ⟨v, hv⟩
        · exact Or.inl (by omega)
        · exact Or.inr (Or.inl (fun e2 he2 => hfatal e2
            (by rw [show i + (k2 + 1) = i + 1 + k2 by omega]; exact he2)))
        · exact Or.inr (Or.inr ⟨v, by rw [show i + 1 + k2 = i + (k2 + 1) by omega]; exact hv⟩)
      obtain ⟨ih1, ih2⟩ := ih (i + 1) (d * 2) k2 (by omega) htrans2 hstop2
      constructor
      · unfold retryOperation
        rw [he]
        simp only [het, if_true]
        rw [ih1]
        congr 1
        omega
      · unfold retryOperation
        rw [he]
        simp only [het, if_true]
        rw [ih2, List.range_succ_eq_map, List.map_cons, List.map_map]
        congr 1
        · norm_num
        · apply List.map_congr_left
          intro j hj
          simp only [Function.comp_apply]
          rw [pow_succ]
          ring

/-- C7 (confirmed): when the first `k` invocations fail with transient errors
(rate-limit/quota, overload, timeout/abort markers) and invocation `k` is
terminal (a success, a non-transient failure, or the end of the retry
budget `n`), the retry wrapper sleeps exactly `d·2^0, …, d·2^(k−1)` and
surfaces the outcome of invocation `k` unchanged — it retries only
transient failures and substitutes no fallback on a fatal failure or on
budget exhaustion. -/
theorem C7_retry_schedule {α : Type} (op : ℕ → Except String α) (n : ℕ) (d : ℚ) (k : ℕ)
    (hk : k ≤ n)
    (htrans : ∀ j, j < k → ∃ e, op j = Except.error e ∧ isTransientError e = true)
    (hstop : k = n ∨ (∀ e, op k = Except.error e → isTransientError e = false) ∨
      ∃ v, op k = Except.ok v) :
    (retryOperation op 0 n d).1 = op k ∧
    (retryOperation op 0 n d).2 = (List.range k).map (fun j => d * 2 ^ j) := by
  have h := retryOperation_spec op n 0 d k hk
    (by intro j hj; rw [Nat.zero_add]; exact htrans j hj)
    (by rw [Nat.zero_add]; exact hstop)
  rwa [Nat.zero_add] at h

/-- Operation for the C7 witness: two transient (quota) failures followed by a
fatal (malformed response) failure. -/
def c7op : ℕ → Except String ℕ :=
  fun i => if i < 2 then Except.error "429 rate limited" else Except.error "invalid schema"

/-- Witness for C7 at a concrete operation: both retries back off (4000 then
8000 ms) and the fatal error of the third invocation is surfaced as-is. -/
theorem C7_retry_schedule_witness :
    (retryOperation c7op 0 3 4000).1 = Except.error "invalid schema" ∧
    (retryOperation c7op 0 3 4000).2 = [4000, 8000] := by
  obtain ⟨h1, h2⟩ := C7_retry_schedule c7op 3 4000 2 (by norm_num)
    (by
      intro j hj
      interval_cases j <;>
        exact ⟨"429 rate limited", rfl, by decide⟩)
    (Or.inr (Or.inl (by
      intro e he
      simp only [c7op] at he
      norm_num at he
      subst he
      decide)))
  refine ⟨?_, ?_⟩
  · rw [h1]; rfl
  · rw [h2]
    simp [List.range_succ]
    norm_num

/-! ### C8 -/

/-- C8 (confirmed): any requirement whose item number is `TRF-DIST-001` or
whose description contains `500kVA` takes the demo-override path for every
catalog: a single candidate with match score exactly 98.5, `isMTO =
false`, and the requested quantity passed through — independent of
parameters, quantity, and the catalog's specifications and stock. -/
theorem C8_demo_override (prod : ProductRequirement) (skus : List SKU)
    (h : isDemoProduct prod = true) :
    ∃ c : ScoredSku,
      (matchOne skus prod).matchList = [c] ∧ c.matchScore = 197 / 2 ∧
      (matchOne skus prod).isMTO = false ∧
      (matchOne skus prod).requestedQty = prod.qty := by
  unfold matchOne
  rw [if_pos h]
  unfold demoMatch
  exact ⟨_, rfl, rfl, rfl, rfl⟩

/-- Requirement triggering the demo override through its description, with a
large requested quantity and used against an empty catalog. -/
def c8Prod : ProductRequirement := ⟨"X-99", "Package incl 500kVA trafo", 999, "Nos", []⟩

/-- Witness for C8: the description-triggered override on an empty catalog. -/
theorem C8_demo_override_witness :
    (matchOne [] c8Prod).isMTO = false ∧ (matchOne [] c8Prod).requestedQty = c8Prod.qty := by
  obtain ⟨c, h1, h2, h3, h4⟩ := C8_demo_override c8Prod [] (by decide)
  exact ⟨h3, h4⟩

/-! ### C9 -/

/-- C9 (confirmed): for any nonnegative grand total and any variance factor
in the generated range [−0.05, 0.15), the strategy price position is
`Competitive` with price score 75 — the `Low-Cost` and `Premium` branches
are unreachable because `marketLow = 0.85·(1+v)·P ≤ P` and
`marketHigh = 1.15·(1+v)·P ≥ P` throughout the range. -/
theorem C9_always_competitive (P v : ℚ) (hP : 0 ≤ P)
    (h1 : -(5 / 100) ≤ v) (h2 : v < 15 / 100) :
    pricePositionOf P v = ("Competitive", 75) := by
  unfold pricePositionOf
  dsimp only
  have hlow : ¬ (P < P * (1 + v) * (85 / 100)) := by
    have hprod : 0 ≤ P * (3 / 20 - v) := mul_nonneg hP (by linarith)
    nlinarith
  have hhigh : ¬ (P * (1 + v) * (115 / 100) < P) := by
    have hprod : 0 ≤ P * (v + 1 / 20) := mul_nonneg hP (by linarith)
    nlinarith
  rw [if_neg hlow, if_neg hhigh]

/-- Witness for C9 at grand total 1000 and variance 0. -/
theorem C9_always_competitive_witness :
    pricePositionOf 1000 0 = ("Competitive", 75) :=
  C9_always_competitive 1000 0 (by norm_num) (by norm_num) (by norm_num)

/-! ### C10 -/

/-- C10 (confirmed): the risk score is always one of 20, 35, 50, 65 (base 20,
+30 when some match is made-to-order, +15 when the due date is less than
five days away), so the level is always `Low` or `Medium` — never `High`
(or `Critical`, which the score bands cannot reach) — and the mitigation
is always the standard-warranty recommendation. -/
theorem C10_risk_bounded (ms : List SKUMatch) (dueDate : Option ℤ) (now : ℤ) :
    ((runRiskAssessment ms dueDate now).score = 20 ∨
      (runRiskAssessment ms dueDate now).score = 35 ∨
      (runRiskAssessment ms dueDate now).score = 50 ∨
      (runRiskAssessment ms dueDate now).score = 65) ∧
    ((runRiskAssessment ms dueDate now).level = "Low" ∨
      (runRiskAssessment ms dueDate now).level = "Medium") ∧
    (runRiskAssessment ms dueDate now).mitigation =
      "Recommendation: Standard warranty terms apply." := by
  unfold runRiskAssessment
  dsimp only
  rcases dueDate with _ | dd
  · cases hb : (0 < ms.length && 0 < (List.filter (fun m => m.isMTO) ms).length) <;> simp
  · cases hb : (0 < ms.length && 0 < (List.filter (fun m => m.isMTO) ms).length) <;>
      by_cases hd : dd - now < (432000000 : ℤ) <;> simp [hd]

end BidSmart
